import Mathlib

/-! Verification of the `mcp0` registry/proxy and the stdio JSON-RPC
bridges of this repository.

A shallow embedding of the core logic of the `voice_chat` repository:
the provider registry, health aggregation and reverse proxy of `mcp0`
(`src/mcp0/registry.py`, `src/mcp0/main.py`, `src/mcp0/settings.py`,
`src/mcp0/schemas.py`), and the stdio JSON-RPC bridge pattern shared by
`mcp_github_bridge`, `mcp_memory` and `mcp_memento` (`src/*/main.py`).

Python values are embedded as follows: `str` as `String` (manipulated
through its character list `String.data`), `int` as `Int` (ids) or `Nat`
(HTTP status codes, lengths), `dict` as an insertion-ordered association
list, functions that may raise as `Except`/`Option`-valued functions,
and network or subprocess I/O as explicit outcome parameters (`Except`
of the raised exception's message, or an inductive outcome type).
Wall-clock timestamps (`updated_at` fields, latency measurement) are
outside the embedding: they are omitted or taken as inputs.

The file is organised as definitions first (the embedding), then the
theorems about them.
-/

namespace VoiceChat

/-- A JSON value, as produced by `json.loads`.  Numbers are modelled as
integers (every id the bridges emit is an `int`).  Compound payloads
(arrays/objects) are carried around by the modelled code without ever
being inspected, so atoms suffice as their representatives; no claim
depends on the internal shape of a payload. -/
inductive Json where
  | null
  | bool (b : Bool)
  | num (n : Int)
  | str (s : String)
deriving DecidableEq

/-- An HTTP error raised with FastAPI's `HTTPException(status_code, detail)`. -/
structure HTTPError where
  status_code : Nat
  detail : Json
deriving DecidableEq

/-! ## Python `str` primitives

Python strings are embedded as `List Char` (accessed from `String` via
`String.data`).  Each helper models the stdlib method named in its doc
comment. -/

/-- Characters removed by `str.strip()` (ASCII whitespace). -/
def pyWhitespace (c : Char) : Bool :=
  c == ' ' || c == '\t' || c == '\n' || c == '\r' || c == '\x0b' || c == '\x0c'

/-- Python `s.strip()`: drop whitespace from both ends. -/
def pyStrip (l : List Char) : List Char :=
  ((l.dropWhile pyWhitespace).reverse.dropWhile pyWhitespace).reverse

/-- Python `s.lower()` (ASCII case folding suffices for the inputs here). -/
def pyLower (l : List Char) : List Char := l.map Char.toLower

/-- Python `s.startswith(pre)`. -/
def pyStartsWith (l pre : List Char) : Bool := pre.isPrefixOf l

/-- Python `s.lstrip(c)` for a single strip character. -/
def pyLStrip (c : Char) (l : List Char) : List Char := l.dropWhile (· == c)

/-- Python `s.rstrip(c)` for a single strip character. -/
def pyRStrip (c : Char) (l : List Char) : List Char :=
  (l.reverse.dropWhile (· == c)).reverse

/-- Python `s.split(sep, 1)[1]`: everything after the first occurrence of
`sep` (meaningful when `sep` occurs in `l`). -/
def pySplitOnceRest (sep : Char) (l : List Char) : List Char :=
  (l.dropWhile (· != sep)).tail

/-- Python `needle in haystack` (substring containment). -/
def pyContains (hay needle : List Char) : Bool := decide (needle <:+: hay)

/-! ## Decimal printing and parsing

Models of `str(n)` and `int(s)`, needed by the memento `Content-Length`
framing. -/

/-- Decimal digit character for `d < 10`. -/
def digitChar (d : Nat) : Char := Char.ofNat (48 + d)

/-- Numeric value of a digit character. -/
def digitVal (c : Char) : Nat := c.toNat - 48

/-- Helper for `pyStrNat`: push the decimal digits of `n` (most
significant first) in front of `acc`.  The fuel argument only bounds the
recursion; `fuel = n` always suffices since `n / 10 < n`. -/
def pyStrNatAux : Nat → Nat → List Char → List Char
  | 0, _, acc => acc
  | f + 1, n, acc =>
    if n = 0 then acc else pyStrNatAux f (n / 10) (digitChar (n % 10) :: acc)

/-- Python `str(n)` for a nonnegative integer. -/
def pyStrNat (n : Nat) : List Char :=
  if n = 0 then ['0'] else pyStrNatAux n n []

/-- Parse a nonempty all-digit string to the number it denotes
(helper for `pyIntOfStr`). -/
def parseNatDigits (l : List Char) : Option Nat :=
  if !l.isEmpty && l.all Char.isDigit then
    some (l.foldl (fun acc c => 10 * acc + digitVal c) 0)
  else
    none

/-- Python `int(s)` on a string: strip whitespace, optional sign, then a
nonempty run of decimal digits; anything else raises `ValueError`
(modelled as `none`).  Underscore digit grouping is not modelled. -/
def pyIntOfStr (l : List Char) : Option Int :=
  if (pyStrip l).head? = some '-' then
    (parseNatDigits (pyStrip l).tail).map (fun n => -(n : Int))
  else if (pyStrip l).head? = some '+' then
    (parseNatDigits (pyStrip l).tail).map (fun n => (n : Int))
  else
    (parseNatDigits (pyStrip l)).map (fun n => (n : Int))

/-! ## Insertion-ordered dictionaries

Python `dict` embedded as an association list: lookup / membership find
the first matching key, insertion overwrites in place or appends, and
`pop` removes the first matching entry. -/

/-- Model of `d.get(k)` / `d[k]` (first match). -/
def dictLookup {κ α : Type} [DecidableEq κ] (k : κ) : List (κ × α) → Option α
  | [] => none
  | (k', v) :: rest => if k' = k then some v else dictLookup k rest

/-- Model of `d[k] = v`: overwrite in place if present, else append
(Python dicts keep the original insertion position on overwrite). -/
def dictInsert {κ α : Type} [DecidableEq κ] (k : κ) (v : α) : List (κ × α) → List (κ × α)
  | [] => [(k, v)]
  | (k', v') :: rest =>
    if k' = k then (k, v) :: rest else (k', v') :: dictInsert k v rest

/-- Model of `d.pop(k, None)`: remove the first entry with key `k`,
returning the removed value and the remaining dictionary. -/
def dictPop {κ α : Type} [DecidableEq κ] (k : κ) : List (κ × α) → Option (α × List (κ × α))
  | [] => none
  | (k', v) :: rest =>
    if k' = k then some (v, rest)
    else (dictPop k rest).map (fun p => (p.1, (k', v) :: p.2))

/-- Model of `d.pop(k, None)` discarding the removed value (used where the
source ignores the popped future, e.g. the memento timeout path). -/
def dictRemove {κ α : Type} [DecidableEq κ] (k : κ) (l : List (κ × α)) : List (κ × α) :=
  match dictPop k l with
  | none => l
  | some (_, rest) => rest

/-! ## The stdio bridge reader and request multiplexer

`GithubMCPBridge`, `MemoryBridge` and `MementoBridge` share one dispatch
step, repeated verbatim in each `_listen_for_responses`
(`src/mcp_github_bridge/main.py` lines 169-175, `src/mcp_memory/main.py`
lines 158-164, `src/mcp_memento/main.py` lines 167-173):

```
response_id = message.get("id")
if response_id is not None:
    future = self._pending.pop(int(response_id), None)
    if future and not future.done():
        future.set_result(message)
else:
    logger.debug(...)
```

In the github and memory bridges the reader loop parses each stdout line
with `json.loads` and feeds the result straight to this step.  In the
memento bridge the step is dead code: `_read_message` raises an
`AttributeError` (from the never-assigned `self._logger`) after every
successful parse, so no message ever reaches it — see the memento wire
framing section below and `mementoReaderStep`. -/

/-- A JSON-RPC `id` value as found in a parsed message (JSON-RPC 2.0
allows numbers and strings; `None`/absent is modelled by `Option` at the
use site). -/
inductive RpcId where
  | num (n : Int)
  | str (s : String)
deriving DecidableEq

/-- A parsed JSON-RPC message, restricted to the object shape the
bridges inspect: the `message.get` projections for `id`, `result` and
`error`. -/
structure RpcMessage where
  id? : Option RpcId
  result? : Option Json := none
  error? : Option Json := none
deriving DecidableEq

/-- Python `int(x)` applied to a JSON-decoded id value: identity on
numbers, decimal parsing on strings (`ValueError`, i.e. `none`, when the
string is not an integer literal). -/
def pyInt : RpcId → Option Int
  | .num n => some n
  | .str s => pyIntOfStr s.data

/-- Integer correlation id a message resolves to, if `int(message["id"])`
succeeds. -/
def RpcMessage.coercedId (m : RpcMessage) : Option Int :=
  m.id?.bind pyInt

/-- One pending-map future: unresolved, resolved with a message, or
failed with an error.  The modelled code never moves a future to
`failed`; the constructor exists to express what the spec asks for. -/
inductive FutureState where
  | unresolved
  | resolved (m : RpcMessage)
  | failed (statusCode : Nat) (msg : String)
deriving DecidableEq

/-- Model of `future.done()`. -/
def FutureState.done : FutureState → Bool
  | .unresolved => false
  | _ => true

/-- Whether a future was failed with an error (what the spec's "failing
all pending requests" would produce). -/
def FutureState.isFailed : FutureState → Bool
  | .failed _ _ => true
  | _ => false

/-- Reader-side dispatch step.  Given the pending map and one parsed
inbound message it returns the new pending map together with the
resolution it performed (`some (i, m)` means the future stored under id
`i` was resolved with the full message `m`), or the uncaught Python
exception that `int(response_id)` raises on a non-integer id. -/
def dispatchMessage (pending : List (Int × FutureState)) (m : RpcMessage) :
    Except String (List (Int × FutureState) × Option (Int × RpcMessage)) :=
  match m.id? with
  | none => .ok (pending, none)
  | some v =>
    match pyInt v with
    | none => .error "ValueError: invalid literal for int() with base 10"
    | some i =>
      match dictPop i pending with
      | none => .ok (pending, none)
      | some (fut, rest) =>
        if fut.done then .ok (rest, none) else .ok (rest, some (i, m))

/-- Reader loop of the line-based bridges
(`GithubMCPBridge._listen_for_responses`,
`MemoryBridge._listen_for_responses`) over a whole inbound stream:
dispatch each successfully parsed message in order (lines that fail
`json.loads` are logged and skipped, so only parsed messages appear in
the input list) and stop at EOF, leaving whatever is still pending
untouched (the loop just `break`s).  Returns the final pending map and
the list of resolutions performed; an uncaught exception from the
dispatch step aborts the loop.  The memento bridge's reader is modelled
separately (`mementoReaderStep`), since there `_read_message` raises
before any message reaches the dispatch step. -/
def listenForResponses (pending : List (Int × FutureState)) :
    List RpcMessage →
    Except String (List (Int × FutureState) × List (Int × RpcMessage))
  | [] => .ok (pending, [])
  | m :: rest =>
    match dispatchMessage pending m with
    | .error e => .error e
    | .ok (pending', r?) =>
      match listenForResponses pending' rest with
      | .error e => .error e
      | .ok (pendingF, rs) => .ok (pendingF, r?.toList ++ rs)

/-- Pending map holding one fresh (unresolved) future per id, as the
multiplexer builds it for a batch of concurrent `_request` calls. -/
def mkPending (ids : List Int) : List (Int × FutureState) :=
  ids.map (fun i => (i, FutureState.unresolved))

/-! ## Bridge process lifecycle (`GithubMCPBridge`, C3)

State visible to `is_running`, `_request`'s guard and the reader loop. -/

/-- A spawned child process handle (`asyncio.subprocess.Process`): the
only attribute the modelled code reads is `returncode`. -/
structure ChildProc where
  returncode : Option Int
deriving DecidableEq

/-- The mutable bridge fields involved in lifecycle decisions. -/
structure BridgeState where
  proc : Option ChildProc
  writerPresent : Bool
  pending : List (Int × FutureState)
  idSeq : Int
deriving DecidableEq

/-- Model of the `is_running` property: the process handle exists and has
not recorded an exit code. -/
def is_running (s : BridgeState) : Bool :=
  match s.proc with
  | some p => p.returncode.isNone
  | none => false

/-- An unexpected child exit with the given code: the OS records the exit
code on the process handle.  Nothing else in the bridge reacts to it
directly (the stdout reader will merely observe EOF). -/
def childExit (code : Int) (s : BridgeState) : BridgeState :=
  { s with proc := s.proc.map (fun _ => ⟨some code⟩) }

/-- Guard at the top of `GithubMCPBridge._request`
(`src/mcp_github_bridge/main.py` lines 118-119): fail fast with 503
before doing any I/O when the bridge is not running. -/
def requestGuard (s : BridgeState) : Option HTTPError :=
  if !(is_running s) || !s.writerPresent then
    some ⟨503, .str "GitHub MCP bridge not running"⟩
  else
    none

/-! ## Provider registry (`src/mcp0/registry.py`, `src/mcp0/schemas.py`) -/

/-- Schema `ProviderDescriptor`. -/
structure ProviderDescriptor where
  name : String
  base_url : String
  health_path : String := "/health"
  health_method : String := "GET"
  capabilities_path : Option String := some "/.well-known/mcp.json"
  default_tools : List String := []
deriving DecidableEq

/-- Schema `ProviderHealth` (the `updated_at` wall-clock timestamp is
outside the embedding). -/
structure ProviderHealth where
  name : String
  status : String
  detail : Option Json := none
  latency_ms : Option Int := none
deriving DecidableEq

/-- Schema `ProviderInfo` (`capabilities_updated_at` carried as an opaque
timestamp value). -/
structure ProviderInfo where
  name : String
  base_url : String
  health_path : String
  capabilities_path : Option String
  default_tools : List String := []
  health : Option ProviderHealth := none
  capabilities : Option Json := none
  capabilities_updated_at : Option Nat := none
deriving DecidableEq

/-- Schema `AggregatedHealth` (again without the `updated_at` field). -/
structure AggregatedHealth where
  status : String
  services : List ProviderHealth
deriving DecidableEq

/-- Schema `ProxyResponse`; `response` holds either decoded JSON or the
raw text body (Python types both as `Any`). -/
inductive ProxyBody where
  | json (v : Json)
  | text (t : String)
deriving DecidableEq

structure ProxyResponse where
  provider : String
  target_url : String
  status_code : Nat
  response : ProxyBody
deriving DecidableEq

/-- Mutable state of `ProviderRegistry`: the insertion-ordered descriptor
map and the caches keyed by provider name (`_providers`, `_health`,
`_capabilities`, `_capabilities_updated_at`, `_auth_headers`). -/
structure RegistryState where
  providers : List (String × ProviderDescriptor)
  health : List (String × ProviderHealth)
  capabilities : List (String × Json)
  capabilities_updated_at : List (String × Nat)
  auth_headers : List (String × List (String × String))
deriving DecidableEq

/-- Model of `ProviderRegistry.get_descriptor`. -/
def get_descriptor (s : RegistryState) (provider_name : String) : Option ProviderDescriptor :=
  dictLookup provider_name s.providers

/-- Segment of a URL up to and including its last `/` (what
`urllib.parse.urljoin` keeps of the base when merging a relative
reference). -/
def keepThroughLastSlash (l : List Char) : List Char :=
  (l.reverse.dropWhile (· != '/')).reverse

/-- Model of Python `urllib.parse.urljoin`, restricted to the inputs
`build_target_url` produces: an absolute base URL without query or
fragment, and a relative reference that is a plain path (no scheme, no
leading slash, no dot segments).  On those inputs `urljoin` returns the
base unchanged for an empty reference, and otherwise replaces everything
after the base's last slash with the reference. -/
def urljoin (base rel : List Char) : List Char :=
  if rel.isEmpty then base else keepThroughLastSlash base ++ rel

/-- Model of `ProviderRegistry.build_target_url`
(`src/mcp0/registry.py` lines 87-89):
`urljoin(descriptor.base_url.rstrip("/") + "/", relative_path.lstrip("/"))`. -/
def build_target_url (descriptor : ProviderDescriptor) (relative_path : String) : String :=
  ⟨urljoin (pyRStrip '/' descriptor.base_url.data ++ ['/']) (pyLStrip '/' relative_path.data)⟩

/-- Model of `ProviderRegistry._build_provider_info`: merge the
descriptor with the cached health/capabilities state. -/
def _build_provider_info (s : RegistryState) (descriptor : ProviderDescriptor) : ProviderInfo :=
  { name := descriptor.name
    base_url := descriptor.base_url
    health_path := descriptor.health_path
    capabilities_path := descriptor.capabilities_path
    default_tools := descriptor.default_tools
    health := dictLookup descriptor.name s.health
    capabilities := dictLookup descriptor.name s.capabilities
    capabilities_updated_at := dictLookup descriptor.name s.capabilities_updated_at }

/-- Model of `ProviderRegistry.list_providers`. -/
def list_providers (s : RegistryState) : List ProviderInfo :=
  s.providers.map (fun p => _build_provider_info s p.2)

/-- Model of `ProviderRegistry.get_provider_info`. -/
def get_provider_info (s : RegistryState) (provider_name : String) : Option ProviderInfo :=
  match dictLookup provider_name s.providers with
  | none => none
  | some descriptor => some (_build_provider_info s descriptor)

/-- Model of `ProviderRegistry.upsert_provider`
(`src/mcp0/registry.py` lines 115-119): store the descriptor under its
name, store auth headers only when a truthy `headers` argument is given
(Python `if headers:` is false for `None` and for an empty dict), and
return the merged info view. -/
def upsert_provider (s : RegistryState) (descriptor : ProviderDescriptor)
    (headers : Option (List (String × String)) := none) :
    RegistryState × ProviderInfo :=
  let s1 := { s with providers := dictInsert descriptor.name descriptor s.providers }
  let s2 :=
    match headers with
    | some hs =>
      if hs.isEmpty then s1
      else { s1 with
        auth_headers := dictInsert ⟨pyLower descriptor.name.data⟩ hs s1.auth_headers }
    | none => s1
  (s2, _build_provider_info s2 descriptor)

/-- Model of `ProviderRegistry.remove_provider`: drop the descriptor and
every cache entry for the name; report whether anything was removed. -/
def remove_provider (s : RegistryState) (provider_name : String) : RegistryState × Bool :=
  match dictPop provider_name s.providers with
  | none => (s, false)
  | some (_, providers') =>
    ({ providers := providers'
       health := dictRemove provider_name s.health
       capabilities := dictRemove provider_name s.capabilities
       capabilities_updated_at := dictRemove provider_name s.capabilities_updated_at
       auth_headers := dictRemove ⟨pyLower provider_name.data⟩ s.auth_headers }, true)

/-! ## Health aggregation (`ProviderRegistry.collect_health`, C2)

The network is abstracted as one outcome per provider: either the raised
exception's `str(exc)`, or the HTTP response `_fetch_health` inspected
(status code, content type, decoded JSON body if any, measured latency).
The `except` branch inside `_fetch_health` and the
`gather(..., return_exceptions=True)` branch of `collect_health` convert
a raised exception to the same `ProviderHealth`, so both are represented
by the `.error` case. -/

deriving instance DecidableEq for Except

/-- Result of a completed health HTTP request as `_fetch_health` sees it:
`status_code`, the `content-type` header, the outcome of
`response.json()` (`.error` when decoding raises `JSONDecodeError`), and
the measured wall-clock latency in milliseconds. -/
structure HealthFetchOk where
  status_code : Nat
  content_type : String
  body_json : Except Unit Json
  latency_ms : Int
deriving DecidableEq

/-- Model of `ProviderRegistry._fetch_health`
(`src/mcp0/registry.py` lines 155-171) for one provider, given the
request outcome: HTTP status at least 400 becomes an `error` entry with
`detail` of the form `HTTP nnn`; otherwise `ok` with the JSON body as detail
when the content type says JSON and it decodes (decode failure is
suppressed, leaving `detail=None`); a raised exception becomes an
`error` entry with `detail=str(exc)`. -/
def _fetch_health (descriptor : ProviderDescriptor) (net : Except String HealthFetchOk) :
    ProviderHealth :=
  match net with
  | .error exc => { name := descriptor.name, status := "error", detail := some (.str exc) }
  | .ok r =>
    if r.status_code ≥ 400 then
      { name := descriptor.name
        status := "error"
        detail := some (.str ("HTTP " ++ ⟨pyStrNat r.status_code⟩))
        latency_ms := some r.latency_ms }
    else
      { name := descriptor.name
        status := "ok"
        detail :=
          if pyContains r.content_type.data "application/json".data then
            match r.body_json with
            | .ok v => some v
            | .error _ => none
          else none
        latency_ms := some r.latency_ms }

/-- Model of `ProviderRegistry.collect_health`
(`src/mcp0/registry.py` lines 131-148): one entry per provider, in
registry order, each computed solely from that provider's outcome;
overall `status` is `ok` iff every entry is `ok`.  (The write-back into
the `_health` cache is not needed by any claim and is omitted.) -/
def collect_health (providers : List ProviderDescriptor)
    (net : List (Except String HealthFetchOk)) : AggregatedHealth :=
  let health_entries := List.zipWith _fetch_health providers net
  { status := if health_entries.all (fun e => e.status == "ok") then "ok" else "error"
    services := health_entries }

/-! ## Proxy handler (`_proxy_request`, C4) -/

/-- An upstream HTTP response as `_proxy_request` sees it: status code,
`content-type` header, raw text body, and the outcome of
`response.json()` (`.error` when parsing raises). -/
structure UpstreamResponse where
  status_code : Nat
  content_type : String
  text : String
  json : Except Unit Json
deriving DecidableEq

/-- Body normalization of `_proxy_request` (`src/mcp0/main.py` lines
142-150): parse as JSON when the content type contains
`application/json` (falling back to raw text on a parse failure),
otherwise pass the raw text through. -/
def parseProxyBody (r : UpstreamResponse) : ProxyBody :=
  if pyContains r.content_type.data "application/json".data then
    match r.json with
    | .ok v => .json v
    | .error _ => .text r.text
  else
    .text r.text

/-- Model of `_proxy_request` (`src/mcp0/main.py` lines 120-157).  The
POST itself is abstracted as `net`: `.error e` is a raised
`httpx.RequestError` with message `e` (connection refused, timeout, DNS
failure), `.ok r` a completed HTTP exchange — whatever its status code.
The payload and the injected github bearer header do not influence the
control flow modelled here; the payload is kept as an argument for
fidelity. -/
def _proxy_request (s : RegistryState) (provider : String) (relative_path : String)
    (payload : Json) (net : Except String UpstreamResponse) :
    Except HTTPError ProxyResponse :=
  let _ := payload
  match get_descriptor s provider with
  | none => .error ⟨404, .str ("Unknown provider \x27" ++ provider ++ "\x27")⟩
  | some descriptor =>
    let target_url := build_target_url descriptor relative_path
    match net with
    | .error exc => .error ⟨502, .str exc⟩
    | .ok r =>
      .ok { provider := provider
            target_url := target_url
            status_code := r.status_code
            response := parseProxyBody r }

/-! ## Admin token gate (`require_admin`, C5) -/

/-- Model of `require_admin` (`src/mcp0/main.py` lines 92-100).
`adminToken` is `settings.admin_token` (`none` = unset; the empty string
is falsy in Python and equally rejected), `authorization` the incoming
`Authorization` header.  Returns the `HTTPException` raised, or `none`
when the request is allowed through. -/
def require_admin (adminToken : Option String) (authorization : Option String) :
    Option HTTPError :=
  match adminToken with
  | none => some ⟨503, .str "Admin API disabled"⟩
  | some token =>
    if token = "" then some ⟨503, .str "Admin API disabled"⟩
    else
      match authorization with
      | none => some ⟨401, .str "Missing or invalid admin token"⟩
      | some auth =>
        if !pyStartsWith (pyLower auth.data) "bearer ".data then
          some ⟨401, .str "Missing or invalid admin token"⟩
        else
          let provided := pyStrip (pySplitOnceRest ' ' auth.data)
          if provided ≠ token.data then some ⟨403, .str "Forbidden"⟩ else none

/-! ## Memento bridge: wire framing (C7)

`MementoBridge._send_message` builds a `Content-Length: N\r\n\r\n`
header followed by exactly `N` bytes of UTF-8 JSON; `_read_message`
recognises both that framing and bare newline-delimited JSON.  The byte
stream is embedded as `List Char` (one element per byte; all framing
bytes are ASCII) and JSON (de)serialization is a parameter, `json.loads`
being external.  A parse result of `none` models `JSONDecodeError`.

Both functions, however, dereference `self._logger`
(`src/mcp_memento/main.py` lines 179-180, 218-219, 228-229), an
attribute that `MementoBridge.__init__` (lines 35-47) never assigns and
that the class does not define, so the lookup raises `AttributeError`
every time: `_send_message` raises before `self._writer.write`, and
`_read_message` raises right after every successful `json.loads` (the
surrounding `except json.JSONDecodeError` does not catch it).  The
module-level `logger` used three lines away in the same functions
(lines 210, 222, 232) marks `self._logger` as a slip.  The embedding
models the attribute lookup explicitly so that this error path is
kept. -/

/-- Result of Python `getattr(self, "_logger", <missing>)` on a
`MementoBridge` instance: `__init__` assigns no `_logger` attribute and
the class defines none, so the lookup always fails (`none`). -/
def mementoLoggerAttr : Option Unit := none

/-- Message of the `AttributeError` that every `self._logger`
dereference raises. -/
def loggerAttrError : String :=
  "AttributeError: \x27MementoBridge\x27 object has no attribute \x27_logger\x27"

/-- The framed envelope `_send_message` constructs
(`src/mcp_memento/main.py` lines 177-178): the bytes
`self._writer.write(header + body)` would write for a serialized body
`body`. -/
def sendFrame (body : List Char) : List Char :=
  "Content-Length: ".data ++ pyStrNat body.length ++ ['\r', '\n', '\r', '\n'] ++ body

/-- Model of `MementoBridge._send_message` (`src/mcp_memento/main.py`
lines 175-182): builds the framed envelope, then evaluates
`self._logger.level` — since the attribute is missing, every call
raises `AttributeError` before reaching `self._writer.write`, so the
`.ok` outcome (the frame written to the child's stdin) is
unreachable. -/
def sendMessage (body : List Char) : Except String (List Char) :=
  match mementoLoggerAttr with
  | none => .error loggerAttrError
  | some _ => .ok (sendFrame body)

/-- Model of `reader.readline()`: consume up to and including the first
newline (or the whole stream at EOF); returns the line and the rest. -/
def readLine : List Char → List Char × List Char
  | [] => ([], [])
  | c :: rest =>
    if c = '\n' then ([c], rest)
    else
      let (l, r) := readLine rest
      (c :: l, r)

/-- Model of `reader.readexactly(n)`: exactly `n` bytes, or `none` for
`IncompleteReadError` (stream exhausted at EOF). -/
def readExactly (n : Nat) (l : List Char) : Option (List Char × List Char) :=
  if n ≤ l.length then some (l.take n, l.drop n) else none

/-- MIME header loop of `_read_message` (`src/mcp_memento/main.py` lines
197-207): read header lines into a dict until a blank line; `none` for
the `return None` paths.  `fuel` bounds the recursion; every iteration
consumes at least one byte, so `fuel = stream.length` is always enough. -/
def headerLoop (fuel : Nat) (headers : List (List Char × List Char)) (stream : List Char) :
    Option (List (List Char × List Char)) × List Char :=
  match fuel with
  | 0 => (none, stream)
  | fuel + 1 =>
    let (line, rest) := readLine stream
    if line.isEmpty then (none, rest)
    else if line = ['\r', '\n'] || line = ['\n'] then (some headers, rest)
    else
      let decoded := pyStrip line
      if decoded.isEmpty || !(pyContains decoded [':']) then headerLoop fuel headers rest
      else
        let key := decoded.takeWhile (· != ':')
        let val := pySplitOnceRest ':' decoded
        headerLoop fuel (dictInsert (pyLower (pyStrip key)) (pyStrip val) headers) rest

/-- Body-reading tail of `_read_message` (`src/mcp_memento/main.py`
lines 208-223), after the MIME header block has been collected:
`int(headers.get("content-length", "0"))` (whose `ValueError` on a
garbage value is uncaught), the `content_length <= 0` rejection,
`readexactly`, and the JSON parse of the body.  When the parse succeeds
(line 217), the next line dereferences the missing `self._logger` and
raises `AttributeError` — uncaught by the `except json.JSONDecodeError`
— so a parsed message is never returned; a parse failure is caught and
yields `None`. -/
def readClBody {μ : Type} (parse : List Char → Option μ)
    (headers : List (List Char × List Char)) (r : List Char) :
    Except String (Option μ × List Char) :=
  match pyIntOfStr ((dictLookup "content-length".data headers).getD ['0']) with
  | none => .error "ValueError: invalid literal for int() with base 10"
  | some content_length =>
    if content_length ≤ 0 then .ok (none, r)
    else
      match readExactly content_length.toNat r with
      | none => .ok (none, [])
      | some (body, r') =>
        match parse body with
        | none => .ok (none, r')
        | some m =>
          match mementoLoggerAttr with
          | none => .error loggerAttrError
          | some _ => .ok (some m, r')

/-- Content-Length branch of `_read_message` (`src/mcp_memento/main.py`
lines 192-223): seed the header dict from the first line's value, run
the header loop to the blank line, then read the body. -/
def readMessageCL {μ : Type} (parse : List Char → Option μ) (stripped rest : List Char) :
    Except String (Option μ × List Char) :=
  match headerLoop rest.length
      (dictInsert "content-length".data (pyStrip (pySplitOnceRest ':' stripped)) []) rest with
  | (none, r) => .ok (none, r)
  | (some headers, r) => readClBody parse headers r

/-- Dispatch on the first line of `_read_message`
(`src/mcp_memento/main.py` lines 186-233): blank → `None`; a
`Content-Length` header (case-insensitive) → framed read; anything else
→ newline-delimited JSON parse of the stripped line (lines 226-233),
where again a successful parse runs into the missing `self._logger`
(line 228) and raises `AttributeError`, while a parse failure is caught
and yields `None`. -/
def readMessageLine {μ : Type} (parse : List Char → Option μ) (line rest : List Char) :
    Except String (Option μ × List Char) :=
  if line.isEmpty then .ok (none, rest)
  else
    let stripped := pyStrip line
    if stripped.isEmpty then .ok (none, rest)
    else if pyStartsWith (pyLower stripped) "content-length:".data then
      readMessageCL parse stripped rest
    else
      match parse stripped with
      | none => .ok (none, rest)
      | some m =>
        match mementoLoggerAttr with
        | none => .error loggerAttrError
        | some _ => .ok (some m, rest)

/-- Model of `MementoBridge._read_message` (`src/mcp_memento/main.py`
lines 184-233), parametric in the JSON parser: one `readline`, then the
first-line dispatch above.  Returns `none` for every `return None` path
(EOF, blank line, undecodable body, bad or missing `Content-Length`) and
the remaining stream, or the uncaught exception: `ValueError` from
`int(...)` on a garbage `Content-Length` value, or the `AttributeError`
from the missing `self._logger` that fires after every successful parse
— so the `.ok (some _, _)` outcome is unreachable and `_read_message`
never actually delivers a message (see `readMessage_ok_fst_none`). -/
def readMessage {μ : Type} (parse : List Char → Option μ) (stream : List Char) :
    Except String (Option μ × List Char) :=
  match readLine stream with
  | (line, rest) => readMessageLine parse line rest

/-- One iteration of `MementoBridge._listen_for_responses`
(`src/mcp_memento/main.py` lines 160-173): `_read_message`, `break` on
`None` (returned as `.ok none`), otherwise the dispatch step on the
message; an uncaught exception from either kills the reader task.
Because `_read_message` raises on every successfully parsed message, the
dispatch arm is dead code in this bridge. -/
def mementoReaderStep (parse : List Char → Option RpcMessage)
    (pending : List (Int × FutureState)) (stream : List Char) :
    Except String
      (Option ((List (Int × FutureState) × Option (Int × RpcMessage)) × List Char)) :=
  match readMessage parse stream with
  | .error e => .error e
  | .ok (none, _) => .ok none
  | .ok (some m, rest) =>
    match dispatchMessage pending m with
    | .error e => .error e
    | .ok out => .ok (some (out, rest))

/-! ## Memento bridge: request timeout (C8) -/

/-- Default of the `timeout` parameter of `MementoBridge._request`
(`src/mcp_memento/main.py` line 122: `timeout: float = 300.0`), in
seconds. -/
def mementoRequestTimeoutDefault : Nat := 300

/-- How the bounded wait for the matching response ends: the reader
resolves the future with a message before the deadline, or
`asyncio.wait_for` raises `TimeoutError` at the deadline. -/
inductive AwaitOutcome where
  | arrives (m : RpcMessage)
  | timesOut
deriving DecidableEq

/-- Encode a message back to JSON, for the lenient
`result.get("result", result)` fallback (the whole message when there is
no `result` key; its exact JSON shape is irrelevant to every claim). -/
def rpcMessageJson (m : RpcMessage) : Json :=
  match m.result? with
  | some r => r
  | none =>
    match m.error? with
    | some e => e
    | none => .null

/-- Outcome of one `_request` call as the HTTP facade sees it: a normal
return, a raised `HTTPException`, or an uncaught Python exception
propagating out of the coroutine. -/
inductive PyOutcome (α : Type) where
  | ok (value : α)
  | httpExc (e : HTTPError)
  | raised (exc : String)
deriving DecidableEq

/-- Model of `MementoBridge._request` (`src/mcp_memento/main.py` lines
122-148) as a state transformer: guard on `is_running`, allocate the
next correlation id, register an unresolved pending slot, then
`await self._send_message(payload)` (line 137) — which raises
`AttributeError` from the missing `self._logger` on every call, so
the exception propagates out of `_request` (releasing the lock) with
the just-registered slot still in the pending map (a leak), and the
bounded wait below it is never reached.  The dead code is still
modelled: on timeout the slot would be popped and the call would fail
with 504; on arrival a JSON-RPC `error` member would fail the call with
502, otherwise the `result` member (or, leniently, the whole message)
would be returned.  `payloadBytes` stands for the UTF-8 serialization
of the envelope (opaque here). -/
def mementoRequest (s : BridgeState) (method : String) (payloadBytes : List Char)
    (outcome : AwaitOutcome) (timeout : Nat := mementoRequestTimeoutDefault) :
    BridgeState × PyOutcome Json :=
  let _ := timeout
  if !(is_running s) || !s.writerPresent then
    (s, .httpExc ⟨503, .str "memento bridge not running"⟩)
  else
    let req_id := s.idSeq + 1
    let s1 := { s with
      idSeq := req_id
      pending := dictInsert req_id FutureState.unresolved s.pending }
    match sendMessage payloadBytes with
    | .error exc => (s1, .raised exc)
    | .ok _ =>
      match outcome with
      | .timesOut =>
        ({ s1 with pending := dictRemove req_id s1.pending },
         .httpExc ⟨504, .str ("memento request timed out (" ++ method ++ ")")⟩)
      | .arrives m =>
        let s2 := { s1 with pending := dictRemove req_id s1.pending }
        match m.error? with
        | some e => (s2, .httpExc ⟨502, e⟩)
        | none =>
          (s2, .ok (match m.result? with | some r => r | none => rpcMessageJson m))

/-! # Theorems

Helper lemmas first, then one theorem per claim (with its witness or
counterexample). -/

/-! ## Decimal printing and parsing -/

theorem digitChar_isDigit {d : Nat} (h : d < 10) : (digitChar d).isDigit = true := by
  interval_cases d <;> decide

theorem digitVal_digitChar {d : Nat} (h : d < 10) : digitVal (digitChar d) = d := by
  interval_cases d <;> decide

theorem pyStrNatAux_acc (f : Nat) : ∀ (n : Nat) (acc : List Char),
    pyStrNatAux f n acc = pyStrNatAux f n [] ++ acc := by
  induction f with
  | zero => intro n acc; rfl
  | succ f ih =>
    intro n acc
    by_cases hn : n = 0
    · simp [pyStrNatAux, hn]
    · simp only [pyStrNatAux, if_neg hn]
      rw [ih (n / 10) (digitChar (n % 10) :: acc), ih (n / 10) [digitChar (n % 10)],
        List.append_assoc]
      rfl

theorem pyStrNatAux_all_digits (f : Nat) : ∀ (n : Nat) (acc : List Char),
    (∀ c ∈ acc, c.isDigit = true) → ∀ c ∈ pyStrNatAux f n acc, c.isDigit = true := by
  induction f with
  | zero => intro n acc hacc; exact hacc
  | succ f ih =>
    intro n acc hacc c hc
    by_cases hn : n = 0
    · rw [pyStrNatAux, if_pos hn] at hc
      exact hacc c hc
    · rw [pyStrNatAux, if_neg hn] at hc
      refine ih (n / 10) _ ?_ c hc
      intro c' hc'
      rcases List.mem_cons.mp hc' with rfl | h
      · exact digitChar_isDigit (Nat.mod_lt n (by norm_num))
      · exact hacc c' h

theorem pyStrNatAux_val (f : Nat) : ∀ (n a : Nat), 0 < n → n ≤ f →
    (pyStrNatAux f n []).foldl (fun x c => 10 * x + digitVal c) a =
      a * 10 ^ (pyStrNatAux f n []).length + n := by
  induction f with
  | zero => intro n a hn hf; omega
  | succ f ih =>
    intro n a hn hf
    have hmod : digitVal (digitChar (n % 10)) = n % 10 :=
      digitVal_digitChar (Nat.mod_lt n (by norm_num))
    by_cases hsmall : n / 10 = 0
    · have hlt : n < 10 := (Nat.div_eq_zero_iff (by norm_num)).mp hsmall
      have hone : pyStrNatAux (f + 1) n [] = [digitChar (n % 10)] := by
        rw [pyStrNatAux, if_neg (Nat.pos_iff_ne_zero.mp hn), hsmall]
        cases f with
        | zero => rfl
        | succ f' => rw [pyStrNatAux, if_pos rfl]
      rw [hone]
      simp only [List.foldl_cons, List.foldl_nil, List.length_cons, List.length_nil,
        pow_one, hmod, zero_add]
      rw [Nat.mod_eq_of_lt hlt]
      ring
    · have hpos' : 0 < n / 10 := Nat.pos_of_ne_zero hsmall
      have hle : n / 10 ≤ f := by
        have := Nat.div_lt_self hn (by norm_num : (1 : Nat) < 10)
        omega
      have hunfold : pyStrNatAux (f + 1) n [] =
          pyStrNatAux f (n / 10) [] ++ [digitChar (n % 10)] := by
        rw [pyStrNatAux, if_neg (Nat.pos_iff_ne_zero.mp hn)]
        exact pyStrNatAux_acc f (n / 10) [digitChar (n % 10)]
      rw [hunfold, List.foldl_append, ih (n / 10) a hpos' hle]
      simp only [List.foldl_cons, List.foldl_nil, List.length_append, List.length_cons,
        List.length_nil, hmod]
      have hdm := Nat.div_add_mod n 10
      have hpow : 10 ^ ((pyStrNatAux f (n / 10) []).length + (0 + 1)) =
          10 ^ (pyStrNatAux f (n / 10) []).length * 10 := by
        rw [pow_add]
        ring
      rw [hpow]
      ring_nf
      omega

theorem pyStrNat_ne_nil (n : Nat) : pyStrNat n ≠ [] := by
  by_cases h0 : n = 0
  · subst h0; decide
  · rw [pyStrNat, if_neg h0]
    obtain ⟨m, rfl⟩ : ∃ m, n = m + 1 := ⟨n - 1, by omega⟩
    rw [pyStrNatAux, if_neg h0, pyStrNatAux_acc]
    simp

theorem pyStrNat_all_digits (n : Nat) : (pyStrNat n).all Char.isDigit = true := by
  by_cases h0 : n = 0
  · subst h0; decide
  · rw [pyStrNat, if_neg h0, List.all_eq_true]
    exact pyStrNatAux_all_digits n n [] (by simp)

theorem parseNatDigits_pyStrNat (n : Nat) : parseNatDigits (pyStrNat n) = some n := by
  by_cases h0 : n = 0
  · subst h0; decide
  · have hne := pyStrNat_ne_nil n
    have hall := pyStrNat_all_digits n
    have hempty : (pyStrNat n).isEmpty = false := List.isEmpty_eq_false.mpr hne
    rw [parseNatDigits, if_pos (by rw [hempty, hall]; rfl)]
    congr 1
    have hval := pyStrNatAux_val n n 0 (Nat.pos_of_ne_zero h0) le_rfl
    rw [pyStrNat, if_neg h0, hval]
    ring

theorem isDigit_not_ws {c : Char} (h : c.isDigit = true) : pyWhitespace c = false := by
  have hs : c ≠ ' ' := by rintro rfl; exact absurd h (by decide)
  have ht : c ≠ '\t' := by rintro rfl; exact absurd h (by decide)
  have hn : c ≠ '\n' := by rintro rfl; exact absurd h (by decide)
  have hr : c ≠ '\r' := by rintro rfl; exact absurd h (by decide)
  have hv : c ≠ '\x0b' := by rintro rfl; exact absurd h (by decide)
  have hf : c ≠ '\x0c' := by rintro rfl; exact absurd h (by decide)
  simp [pyWhitespace, hs, ht, hn, hr, hv, hf]

theorem isDigit_ne_newline {c : Char} (h : c.isDigit = true) : c ≠ '\n' := by
  rintro rfl; exact absurd h (by decide)

/-! ## Dictionary lemmas -/

theorem dictPop_eq_none_iff {κ α : Type} [DecidableEq κ] (k : κ) (l : List (κ × α)) :
    dictPop k l = none ↔ dictLookup k l = none := by
  induction l with
  | nil => simp [dictPop, dictLookup]
  | cons p rest ih =>
    obtain ⟨k', v⟩ := p
    by_cases h : k' = k <;> simp [dictPop, dictLookup, h, ih]

theorem dictLookup_dictInsert_self {κ α : Type} [DecidableEq κ] (k : κ) (v : α)
    (l : List (κ × α)) : dictLookup k (dictInsert k v l) = some v := by
  induction l with
  | nil => simp [dictInsert, dictLookup]
  | cons p rest ih =>
    obtain ⟨k', v'⟩ := p
    by_cases h : k' = k <;> simp [dictInsert, dictLookup, h, ih]

theorem mkPending_cons (j : Int) (rest : List Int) :
    mkPending (j :: rest) = (j, FutureState.unresolved) :: mkPending rest := rfl

theorem dictPop_mkPending_of_mem {i : Int} {ids : List Int} (h : i ∈ ids) :
    dictPop i (mkPending ids) = some (FutureState.unresolved, mkPending (ids.erase i)) := by
  induction ids with
  | nil => cases h
  | cons j rest ih =>
    rw [mkPending_cons]
    by_cases hji : j = i
    · subst hji
      rw [List.erase_cons_head]
      simp [dictPop]
    · have hmem : i ∈ rest := by
        rcases List.mem_cons.mp h with h1 | h1
        · exact absurd h1.symm hji
        · exact h1
      rw [List.erase_cons, if_neg (by simp [hji]), mkPending_cons]
      simp [dictPop, hji, ih hmem]

theorem dictPop_mkPending_of_not_mem {i : Int} {ids : List Int} (h : i ∉ ids) :
    dictPop i (mkPending ids) = none := by
  induction ids with
  | nil => rfl
  | cons j rest ih =>
    have hji : j ≠ i := fun hji => h (hji ▸ List.mem_cons_self j rest)
    have hmem : i ∉ rest := fun hm => h (List.mem_cons_of_mem j hm)
    rw [mkPending_cons]
    simp [dictPop, hji, ih hmem]

/-! ## Multiplexer dispatch lemmas (C1, C10, C3) -/

theorem listen_multiplex {ids : List Int} {msgs : List RpcMessage}
    (hnd : ids.Nodup)
    (hperm : (msgs.map RpcMessage.coercedId).Perm (ids.map (fun i => some i))) :
    ∃ res, listenForResponses (mkPending ids) msgs = .ok ([], res) ∧
      (res.map Prod.fst).Perm ids ∧
      (∀ p ∈ res, RpcMessage.coercedId p.2 = some p.1) := by
  induction msgs generalizing ids with
  | nil =>
    have hids : ids = [] := by
      have h1 : ids.map (fun i => some i) = [] := hperm.symm.eq_nil
      simpa using h1
    subst hids
    exact ⟨[], rfl, List.Perm.refl _, by simp⟩
  | cons m rest ih =>
    have hmem : m.coercedId ∈ ids.map (fun i => some i) := by
      apply hperm.subset
      simp
    rcases List.mem_map.mp hmem with ⟨i, hi, hsome⟩
    have hc : m.coercedId = some i := hsome.symm
    obtain ⟨v, hv⟩ : ∃ v, m.id? = some v := by
      cases hid : m.id? with
      | none => rw [RpcMessage.coercedId, hid] at hc; simp at hc
      | some v => exact ⟨v, rfl⟩
    have hpy : pyInt v = some i := by
      rw [RpcMessage.coercedId, hv] at hc
      simpa using hc
    have hdisp : dispatchMessage (mkPending ids) m =
        .ok (mkPending (ids.erase i), some (i, m)) := by
      simp [dispatchMessage, hv, hpy, dictPop_mkPending_of_mem hi, FutureState.done]
    have hnd' : (ids.erase i).Nodup := hnd.erase i
    have hperm' : (rest.map RpcMessage.coercedId).Perm ((ids.erase i).map (fun j => some j)) := by
      have h1 : (some i :: rest.map RpcMessage.coercedId).Perm (ids.map (fun j => some j)) := by
        have h0 := hperm
        rw [List.map_cons, hc] at h0
        exact h0
      have h2 := (List.cons_perm_iff_perm_erase.mp h1).2
      rwa [← List.map_erase (fun a b hab => Option.some.inj hab)] at h2
    obtain ⟨res', hres', hpermres', hall'⟩ := ih hnd' hperm'
    refine ⟨(i, m) :: res', ?_, ?_, ?_⟩
    · show listenForResponses (mkPending ids) (m :: rest) = _
      simp only [listenForResponses, hdisp, hres']
      rfl
    · rw [List.map_cons]
      exact (hpermres'.cons i).trans (List.perm_cons_erase hi).symm
    · intro p hp
      rcases List.mem_cons.mp hp with rfl | hp'
      · exact hc
      · exact hall' p hp'

/-- Claim C1, amended to the line-based bridges (`GithubMCPBridge`,
`MemoryBridge`), whose readers actually deliver parsed messages to the
dispatch step: an inbound message with a non-null id pops and resolves
exactly the pending slot keyed by that id, with the full message (error
field included); a message whose id has no pending slot resolves
nothing; a message without an id resolves nothing.  Consequently, for
any set of concurrent `_request` calls with distinct correlation ids,
each caller receives exactly the response whose id matches its own
request, whatever order the child emits responses in.  For
`MementoBridge` the original claim fails: its reader raises
`AttributeError` from the never-assigned `self._logger` after every
successful parse (and `_send_message` raises before writing), so no
inbound message is ever dispatched and no caller receives a response —
see `memento_reader_never_resolves`. -/
theorem bridge_dispatch_correlation :
    (∀ (pending : List (Int × FutureState)) (m : RpcMessage) (i : Int)
        (fut : FutureState) (rest : List (Int × FutureState)),
        m.id? = some (.num i) → dictPop i pending = some (fut, rest) → fut.done = false →
        dispatchMessage pending m = .ok (rest, some (i, m))) ∧
    (∀ (pending : List (Int × FutureState)) (m : RpcMessage) (i : Int),
        m.id? = some (.num i) → dictPop i pending = none →
        dispatchMessage pending m = .ok (pending, none)) ∧
    (∀ (pending : List (Int × FutureState)) (m : RpcMessage),
        m.id? = none → dispatchMessage pending m = .ok (pending, none)) ∧
    (∀ (ids : List Int) (msgs : List RpcMessage),
        ids.Nodup →
        (msgs.map RpcMessage.coercedId).Perm (ids.map (fun i => some i)) →
        ∃ res, listenForResponses (mkPending ids) msgs = .ok ([], res) ∧
          (res.map Prod.fst).Perm ids ∧
          (∀ p ∈ res, RpcMessage.coercedId p.2 = some p.1)) := by
  refine ⟨?_, ?_, ?_, ?_⟩
  · intro pending m i fut rest hid hpop hdone
    simp [dispatchMessage, hid, pyInt, hpop, hdone]
  · intro pending m i hid hpop
    simp [dispatchMessage, hid, pyInt, hpop]
  · intro pending m hid
    simp [dispatchMessage, hid]
  · intro ids msgs hnd hperm
    exact listen_multiplex hnd hperm

/-- Witness for C1: two concurrent requests (ids 1 and 2) answered in
reversed order; each future is resolved with the message carrying its
own id, including the error-carrying response for id 2. -/
theorem bridge_dispatch_correlation_witness :
    ∃ res,
      listenForResponses (mkPending [1, 2])
        [{ id? := some (.num 2), error? := some (.str "boom") },
         { id? := some (.num 1), result? := some (.str "fine") }] = .ok ([], res) ∧
      (res.map Prod.fst).Perm [1, 2] ∧
      (∀ p ∈ res, RpcMessage.coercedId p.2 = some p.1) :=
  bridge_dispatch_correlation.2.2.2 [1, 2]
    [{ id? := some (.num 2), error? := some (.str "boom") },
     { id? := some (.num 1), result? := some (.str "fine") }]
    (by decide) (by decide)

/-- Claim C10, counterexample: a successfully parsed message whose id is the
string `"abc"` (permitted by JSON-RPC 2.0) makes the dispatch step raise
an uncaught `ValueError` from `int(response_id)` instead of resolving,
dropping or logging — so the reader loop dies. -/
theorem dispatch_string_id_raises :
    dispatchMessage [(1, FutureState.unresolved)] { id? := some (.str "abc") } =
      .error "ValueError: invalid literal for int() with base 10" := by
  decide

/-- Claim C3, amended: an unexpected child-process exit makes `is_running`
false and every request issued afterwards fails fast with the 503
"bridge not running" `HTTPException`; the reader loop, seeing EOF,
terminates without touching the pending map, so requests pending at that
moment are left unresolved (they are NOT failed with a "bridge not
running" error — the stated claim's failing of pending requests does not
happen, see the counterexample). -/
theorem bridge_child_exit_fail_fast :
    ∀ (s : BridgeState) (code : Int),
      is_running (childExit code s) = false ∧
      requestGuard (childExit code s) =
        some ⟨503, .str "GitHub MCP bridge not running"⟩ ∧
      (childExit code s).pending = s.pending ∧
      listenForResponses s.pending [] = .ok (s.pending, []) := by
  intro s code
  have h1 : is_running (childExit code s) = false := by
    cases hp : s.proc <;> simp [childExit, is_running, hp]
  refine ⟨h1, ?_, rfl, rfl⟩
  simp [requestGuard, h1]

/-- Claim C3, counterexample: with one request pending, after the child
exits and the reader loop hits EOF, the pending slot is still
`unresolved` — it was not failed with a "bridge not running" error as
the claim states (the caller would hang forever). -/
theorem bridge_crash_leaves_pending_unresolved :
    listenForResponses
        (childExit 1 { proc := some ⟨none⟩, writerPresent := true,
                       pending := [(1, FutureState.unresolved)], idSeq := 1 }).pending
        [] =
      .ok ([(1, FutureState.unresolved)], []) ∧
    FutureState.isFailed FutureState.unresolved = false :=
  ⟨rfl, rfl⟩

/-! ## Health aggregation (C2) -/

theorem zipWith_getElem?_eq {α β γ : Type} {f : α → β → γ} {l1 : List α} {l2 : List β}
    {k : Nat} {a : α} {b : β} (h1 : l1[k]? = some a) (h2 : l2[k]? = some b) :
    (List.zipWith f l1 l2)[k]? = some (f a b) := by
  rw [List.getElem?_zipWith', h1, h2]
  rfl

/-- Claim C2: with N providers, `collect_health` returns one `services`
entry per provider; each entry is a function of that provider's own
fetch outcome alone (partial-failure isolation); a provider whose fetch
raises yields `status="error"` with `detail=str(exception)`; and the
overall status is `"ok"` iff every entry is `"ok"`, equivalently
`"error"` iff fewer than N entries are healthy. -/
theorem collect_health_spec :
    ∀ (providers : List ProviderDescriptor) (net : List (Except String HealthFetchOk)),
      net.length = providers.length →
      ((collect_health providers net).services.length = providers.length) ∧
      (∀ (k : Nat) (d : ProviderDescriptor) (o : Except String HealthFetchOk),
          providers[k]? = some d → net[k]? = some o →
          (collect_health providers net).services[k]? = some (_fetch_health d o)) ∧
      (∀ (k : Nat) (d : ProviderDescriptor) (e : String),
          providers[k]? = some d → net[k]? = some (.error e) →
          (collect_health providers net).services[k]? =
            some { name := d.name, status := "error", detail := some (.str e) }) ∧
      ((collect_health providers net).status = "ok" ↔
        ∀ h ∈ (collect_health providers net).services, h.status = "ok") ∧
      ((collect_health providers net).status = "error" ↔
        (collect_health providers net).services.countP (fun h => h.status == "ok")
          < providers.length) := by
  intro providers net hlen
  have hsvc : (collect_health providers net).services =
      List.zipWith _fetch_health providers net := rfl
  have hlength : (collect_health providers net).services.length = providers.length := by
    rw [hsvc, List.length_zipWith, hlen, min_self]
  have hpoint : ∀ (k : Nat) (d : ProviderDescriptor) (o : Except String HealthFetchOk),
      providers[k]? = some d → net[k]? = some o →
      (collect_health providers net).services[k]? = some (_fetch_health d o) := by
    intro k d o hd ho
    rw [hsvc]
    exact zipWith_getElem?_eq hd ho
  have hok : (collect_health providers net).status = "ok" ↔
      ∀ h ∈ (collect_health providers net).services, h.status = "ok" := by
    show (if (List.zipWith _fetch_health providers net).all (fun e => e.status == "ok")
        then "ok" else "error") = "ok" ↔ _
    by_cases hall : (List.zipWith _fetch_health providers net).all (fun e => e.status == "ok")
    · rw [if_pos hall]
      simp only [true_iff]
      intro h hmem
      exact beq_iff_eq.mp (List.all_eq_true.mp hall h hmem)
    · rw [if_neg hall]
      simp only [show ("error" : String) ≠ "ok" by decide, false_iff]
      intro hcontra
      exact hall (List.all_eq_true.mpr (fun h hmem => beq_iff_eq.mpr (hcontra h hmem)))
  refine ⟨hlength, hpoint, ?_, hok, ?_⟩
  · intro k d e hd ho
    rw [hpoint k d (.error e) hd ho]
    rfl
  · have hcases : (collect_health providers net).status = "ok" ∨
        (collect_health providers net).status = "error" := by
      by_cases hall : (List.zipWith _fetch_health providers net).all (fun e => e.status == "ok")
      · left
        show (if (List.zipWith _fetch_health providers net).all (fun e => e.status == "ok")
            then "ok" else "error") = "ok"
        rw [if_pos hall]
      · right
        show (if (List.zipWith _fetch_health providers net).all (fun e => e.status == "ok")
            then "ok" else "error") = "error"
        rw [if_neg hall]
    have hcount_le : (collect_health providers net).services.countP
        (fun h => h.status == "ok") ≤ providers.length := by
      calc (collect_health providers net).services.countP (fun h => h.status == "ok")
          ≤ (collect_health providers net).services.length := List.countP_le_length _
        _ = providers.length := hlength
    constructor
    · intro herr
      by_contra hnot
      have heq : (collect_health providers net).services.countP
          (fun h => h.status == "ok") = providers.length := le_antisymm hcount_le (le_of_not_lt hnot)
      have hallok : ∀ h ∈ (collect_health providers net).services, h.status = "ok" := by
        have := List.countP_eq_length.mp (heq.trans hlength.symm)
        exact fun h hmem => beq_iff_eq.mp (this h hmem)
      have := hok.mpr hallok
      rw [herr] at this
      exact absurd this (by decide)
    · intro hlt
      rcases hcases with hstat | hstat
      · exfalso
        have hallok := hok.mp hstat
        have : (collect_health providers net).services.countP
            (fun h => h.status == "ok") = providers.length := by
          rw [← hlength]
          exact List.countP_eq_length.mpr
            (fun h hmem => beq_iff_eq.mpr (hallok h hmem))
        omega
      · exact hstat

/-- Witness for C2: two providers, the first healthy (HTTP 200), the
second's fetch raising `ConnectError` — exactly two entries, error
isolation for the second, overall status `error` with 1 < 2 healthy. -/
theorem collect_health_spec_witness :
    (2 : Nat) = 2 ∧
    ((collect_health
        [{ name := "a", base_url := "http://a" }, { name := "b", base_url := "http://b" }]
        [.ok { status_code := 200, content_type := "text/plain",
               body_json := .error (), latency_ms := 3 },
         .error "ConnectError: connection refused"]).services.length = 2 ∧
     (collect_health
        [{ name := "a", base_url := "http://a" }, { name := "b", base_url := "http://b" }]
        [.ok { status_code := 200, content_type := "text/plain",
               body_json := .error (), latency_ms := 3 },
         .error "ConnectError: connection refused"]).services[1]? =
        some { name := "b", status := "error",
               detail := some (.str "ConnectError: connection refused") } ∧
     (collect_health
        [{ name := "a", base_url := "http://a" }, { name := "b", base_url := "http://b" }]
        [.ok { status_code := 200, content_type := "text/plain",
               body_json := .error (), latency_ms := 3 },
         .error "ConnectError: connection refused"]).status = "error") := by
  have h := collect_health_spec
    [{ name := "a", base_url := "http://a" }, { name := "b", base_url := "http://b" }]
    [.ok { status_code := 200, content_type := "text/plain",
           body_json := .error (), latency_ms := 3 },
     .error "ConnectError: connection refused"]
    (by decide)
  refine ⟨rfl, h.1, h.2.2.1 1 { name := "b", base_url := "http://b" }
    "ConnectError: connection refused" (by decide) (by decide), ?_⟩
  exact (h.2.2.2.2.mpr (by decide))

/-! ## Upsert frame conditions (C9) -/

/-- Claim C9: replacing an existing provider by name with `upsert_provider`
leaves the cached health snapshot, capabilities blob and capabilities
timestamp maps unchanged; the returned `ProviderInfo` (and the one
listed afterwards via `get_provider_info`) attaches the old cached
values for that name to the new descriptor; and with the `headers`
argument absent, the stored auth headers persist unchanged. -/
theorem upsert_provider_frame :
    ∀ (s : RegistryState) (d : ProviderDescriptor),
      ((upsert_provider s d none).1.health = s.health) ∧
      ((upsert_provider s d none).1.capabilities = s.capabilities) ∧
      ((upsert_provider s d none).1.capabilities_updated_at = s.capabilities_updated_at) ∧
      ((upsert_provider s d none).1.auth_headers = s.auth_headers) ∧
      ((upsert_provider s d none).2 =
        { name := d.name
          base_url := d.base_url
          health_path := d.health_path
          capabilities_path := d.capabilities_path
          default_tools := d.default_tools
          health := dictLookup d.name s.health
          capabilities := dictLookup d.name s.capabilities
          capabilities_updated_at := dictLookup d.name s.capabilities_updated_at }) ∧
      (get_provider_info (upsert_provider s d none).1 d.name =
        some (upsert_provider s d none).2) := by
  intro s d
  refine ⟨rfl, rfl, rfl, rfl, rfl, ?_⟩
  simp [get_provider_info, upsert_provider, dictLookup_dictInsert_self]

/-! ## Proxy handler (C4) -/

/-- Claim C4: an unknown provider name fails with `NotFound` (404) naming
the provider; a network-level transport failure fails with `BadGateway`
(502) carrying the underlying error message; otherwise the upstream
status code — 404 included — is preserved in `ProxyResponse.status_code`
with no gateway error, the body parsed as JSON when the content type
contains `application/json` and passed through as raw text otherwise or
on a parse failure. -/
theorem proxy_request_spec :
    ∀ (s : RegistryState) (provider relative_path : String) (payload : Json)
      (net : Except String UpstreamResponse),
      (get_descriptor s provider = none →
        _proxy_request s provider relative_path payload net =
          .error ⟨404, .str ("Unknown provider \x27" ++ provider ++ "\x27")⟩) ∧
      (∀ (d : ProviderDescriptor) (e : String),
        get_descriptor s provider = some d → net = .error e →
        _proxy_request s provider relative_path payload net = .error ⟨502, .str e⟩) ∧
      (∀ (d : ProviderDescriptor) (r : UpstreamResponse),
        get_descriptor s provider = some d → net = .ok r →
        _proxy_request s provider relative_path payload net =
          .ok { provider := provider
                target_url := build_target_url d relative_path
                status_code := r.status_code
                response := parseProxyBody r }) ∧
      (∀ (r : UpstreamResponse) (v : Json),
        pyContains r.content_type.data "application/json".data = true →
        r.json = .ok v → parseProxyBody r = .json v) ∧
      (∀ r : UpstreamResponse,
        pyContains r.content_type.data "application/json".data = true →
        r.json = .error () → parseProxyBody r = .text r.text) ∧
      (∀ r : UpstreamResponse,
        pyContains r.content_type.data "application/json".data = false →
        parseProxyBody r = .text r.text) := by
  intro s provider relative_path payload net
  refine ⟨?_, ?_, ?_, ?_, ?_, ?_⟩
  · intro hmiss
    simp [_proxy_request, hmiss]
  · intro d e hd hnet
    simp [_proxy_request, hd, hnet]
  · intro d r hd hnet
    simp [_proxy_request, hd, hnet]
  · intro r v hct hjson
    simp [parseProxyBody, hct, hjson]
  · intro r hct hjson
    simp [parseProxyBody, hct, hjson]
  · intro r hct
    simp [parseProxyBody, hct]

/-- Witness for C4: empty registry — the unknown-provider branch yields
the 404 naming the provider; and a 404-status upstream response is
passed through as proxied content, not as a gateway error. -/
theorem proxy_request_spec_witness :
    (get_descriptor ⟨[], [], [], [], []⟩ "ghost" = none ∧
     _proxy_request ⟨[], [], [], [], []⟩ "ghost" "" .null
        (.ok { status_code := 404, content_type := "text/plain",
               text := "nope", json := .error () }) =
       .error ⟨404, .str "Unknown provider \x27ghost\x27"⟩) ∧
    (get_descriptor ⟨[("svc", { name := "svc", base_url := "http://s" })], [], [], [], []⟩
        "svc" = some { name := "svc", base_url := "http://s" } ∧
     _proxy_request ⟨[("svc", { name := "svc", base_url := "http://s" })], [], [], [], []⟩
        "svc" "" .null
        (.ok { status_code := 404, content_type := "text/plain",
               text := "nope", json := .error () }) =
       .ok { provider := "svc", target_url := build_target_url
               { name := "svc", base_url := "http://s" } "",
             status_code := 404, response := .text "nope" }) := by
  constructor
  · exact ⟨by decide, (proxy_request_spec ⟨[], [], [], [], []⟩ "ghost" "" .null
      (.ok { status_code := 404, content_type := "text/plain",
             text := "nope", json := .error () })).1 (by decide)⟩
  · refine ⟨by decide, ?_⟩
    have h := (proxy_request_spec
        ⟨[("svc", { name := "svc", base_url := "http://s" })], [], [], [], []⟩
        "svc" "" .null
        (.ok { status_code := 404, content_type := "text/plain",
               text := "nope", json := .error () })).2.2.1
      { name := "svc", base_url := "http://s" }
      { status_code := 404, content_type := "text/plain", text := "nope", json := .error () }
      (by decide) rfl
    rw [h]
    decide

/-! ## Admin token gate (C5) -/

/-- Claim C5: with no admin token configured (unset or empty), every admin
call fails 503 regardless of the supplied credentials (fail-closed);
with a token configured, a missing or non-Bearer `Authorization` header
fails 401 and a wrong bearer token fails 403 — statuses pairwise
distinct from the unconfigured case. -/
theorem require_admin_spec :
    (∀ auth, require_admin none auth = some ⟨503, .str "Admin API disabled"⟩) ∧
    (∀ auth, require_admin (some "") auth = some ⟨503, .str "Admin API disabled"⟩) ∧
    (∀ token : String, token ≠ "" →
      require_admin (some token) none =
        some ⟨401, .str "Missing or invalid admin token"⟩) ∧
    (∀ (token auth : String), token ≠ "" →
      pyStartsWith (pyLower auth.data) "bearer ".data = false →
      require_admin (some token) (some auth) =
        some ⟨401, .str "Missing or invalid admin token"⟩) ∧
    (∀ (token auth : String), token ≠ "" →
      pyStartsWith (pyLower auth.data) "bearer ".data = true →
      pyStrip (pySplitOnceRest ' ' auth.data) ≠ token.data →
      require_admin (some token) (some auth) = some ⟨403, .str "Forbidden"⟩) ∧
    ((503 : Nat) ≠ 401 ∧ (503 : Nat) ≠ 403 ∧ (401 : Nat) ≠ 403) := by
  refine ⟨?_, ?_, ?_, ?_, ?_, by decide, by decide, by decide⟩
  · intro auth
    rfl
  · intro auth
    rfl
  · intro token htok
    simp [require_admin, htok]
  · intro token auth htok hpre
    simp [require_admin, htok, hpre]
  · intro token auth htok hpre hne
    simp [require_admin, htok, hpre, hne]

/-- Witness for C5: token `"secret"` with header `"Bearer wrong"` is
rejected 403, while a missing header is rejected 401. -/
theorem require_admin_spec_witness :
    (("secret" : String) ≠ "" ∧
     require_admin (some "secret") none =
       some ⟨401, .str "Missing or invalid admin token"⟩) ∧
    (pyStartsWith (pyLower ("Bearer wrong" : String).data) "bearer ".data = true ∧
     pyStrip (pySplitOnceRest ' ' ("Bearer wrong" : String).data) ≠ ("secret" : String).data ∧
     require_admin (some "secret") (some "Bearer wrong") = some ⟨403, .str "Forbidden"⟩) :=
  ⟨⟨by decide, require_admin_spec.2.2.1 "secret" (by decide)⟩,
   ⟨by decide, by decide,
    require_admin_spec.2.2.2.2.1 "secret" "Bearer wrong" (by decide) (by decide) (by decide)⟩⟩

/-! ## URL joining (C6) -/

theorem pyRStrip_append_strip (c : Char) (l : List Char) :
    pyRStrip c (l ++ [c]) = pyRStrip c l := by
  simp [pyRStrip]

theorem pyLStrip_cons_strip (c : Char) (l : List Char) :
    pyLStrip c (c :: l) = pyLStrip c l := by
  simp [pyLStrip]

theorem keepThroughLastSlash_append_slash (l : List Char) :
    keepThroughLastSlash (l ++ ['/']) = l ++ ['/'] := by
  simp [keepThroughLastSlash]

theorem head?_dropWhile_not {α : Type} (p : α → Bool) (l : List α) {a : α}
    (h : (l.dropWhile p).head? = some a) : p a = false := by
  induction l with
  | nil => simp at h
  | cons x rest ih =>
    by_cases hx : p x
    · rw [List.dropWhile_cons_of_pos hx] at h
      exact ih h
    · rw [List.dropWhile_cons_of_neg hx] at h
      obtain rfl : x = a := by simpa using h
      simpa using hx

/-- Claim C6, counterexample: for the well-formed descriptor with
`base_url = "http://a"` (no trailing slash), `build_target_url(d, "")`
is `"http://a/"`, not exactly `base_url` as claimed. -/
theorem build_target_url_empty_ne_base :
    build_target_url { name := "svc", base_url := "http://a" } "" ≠ "http://a" ∧
    build_target_url { name := "svc", base_url := "http://a" } "" = "http://a/" := by
  constructor
  · decide
  · decide

/-- Claim C6, amended: `build_target_url(d, "")` is `base_url` with its
trailing slashes normalized to exactly one — equal to `base_url` itself
precisely when `base_url` already ends that way; for a nonempty relative
path the result appends it after that single slash, invariant under a
trailing slash on `base_url` and leading slashes on the relative path,
with no double slash at the join point. -/
theorem build_target_url_join :
    ∀ (d : ProviderDescriptor) (rel : String),
      (build_target_url d "" = ⟨pyRStrip '/' d.base_url.data ++ ['/']⟩) ∧
      (build_target_url d "" = d.base_url ↔
        d.base_url.data = pyRStrip '/' d.base_url.data ++ ['/']) ∧
      (build_target_url d ⟨'/' :: rel.data⟩ = build_target_url d rel) ∧
      (build_target_url { d with base_url := ⟨d.base_url.data ++ ['/']⟩ } rel =
        build_target_url d rel) ∧
      (pyLStrip '/' rel.data ≠ [] →
        build_target_url d rel =
          ⟨pyRStrip '/' d.base_url.data ++ '/' :: pyLStrip '/' rel.data⟩) ∧
      (∀ c, (pyRStrip '/' d.base_url.data).getLast? = some c → c ≠ '/') ∧
      (∀ c, (pyLStrip '/' rel.data).head? = some c → c ≠ '/') := by
  intro d rel
  refine ⟨?_, ?_, ?_, ?_, ?_, ?_, ?_⟩
  · show (⟨urljoin (pyRStrip '/' d.base_url.data ++ ['/']) (pyLStrip '/' ([] : List Char))⟩ :
        String) = _
    simp [urljoin, pyLStrip]
  · have h1 : build_target_url d "" = ⟨pyRStrip '/' d.base_url.data ++ ['/']⟩ := by
      show (⟨urljoin (pyRStrip '/' d.base_url.data ++ ['/'])
          (pyLStrip '/' ([] : List Char))⟩ : String) = _
      simp [urljoin, pyLStrip]
    rw [h1, String.ext_iff]
    exact ⟨fun h => h.symm, fun h => h.symm⟩
  · show (⟨urljoin _ (pyLStrip '/' ('/' :: rel.data))⟩ : String) =
      ⟨urljoin _ (pyLStrip '/' rel.data)⟩
    rw [pyLStrip_cons_strip]
  · show (⟨urljoin (pyRStrip '/' (d.base_url.data ++ ['/']) ++ ['/']) _⟩ : String) = _
    rw [pyRStrip_append_strip]
    rfl
  · intro hne
    show (⟨urljoin (pyRStrip '/' d.base_url.data ++ ['/']) (pyLStrip '/' rel.data)⟩ :
        String) = _
    rw [urljoin, if_neg (by simpa [List.isEmpty_eq_false] using hne),
      keepThroughLastSlash_append_slash]
    simp
  · intro c hc
    rw [pyRStrip, List.getLast?_reverse] at hc
    have := head?_dropWhile_not (· == '/') d.base_url.data.reverse hc
    simpa using this
  · intro c hc
    have := head?_dropWhile_not (· == '/') rel.data hc
    simpa using this

/-- Witness for C6 (amended): `base_url = "http://a//"` and relative path
`"/foo/bar"` join to `"http://a/foo/bar"` — one slash at the junction. -/
theorem build_target_url_join_witness :
    pyLStrip '/' ("/foo/bar" : String).data ≠ [] ∧
    build_target_url { name := "svc", base_url := "http://a//" } "/foo/bar" =
      "http://a/foo/bar" := by
  constructor
  · decide
  · have h := (build_target_url_join { name := "svc", base_url := "http://a//" }
      "/foo/bar").2.2.2.2.1 (by decide)
    rw [h]
    decide

/-! ## Memento request timeout (C8) -/

theorem dictPop_dictInsert_fresh {κ α : Type} [DecidableEq κ] (k : κ) (v : α)
    (l : List (κ × α)) (h : dictLookup k l = none) :
    dictPop k (dictInsert k v l) = some (v, l) := by
  induction l with
  | nil => simp [dictInsert, dictPop]
  | cons p rest ih =>
    obtain ⟨k', v'⟩ := p
    have hk : k' ≠ k := by
      intro hkk
      rw [dictLookup, if_pos hkk] at h
      exact Option.noConfusion h
    have hrest : dictLookup k rest = none := by
      rwa [dictLookup, if_neg hk] at h
    rw [dictInsert, if_neg hk, dictPop, if_neg hk, ih hrest]
    rfl

theorem dictRemove_dictInsert_fresh {κ α : Type} [DecidableEq κ] (k : κ) (v : α)
    (l : List (κ × α)) (h : dictLookup k l = none) :
    dictRemove k (dictInsert k v l) = l := by
  rw [dictRemove, dictPop_dictInsert_fresh k v l h]

/-- Claim C8 names a real and clearly intended mechanism — the `timeout`
parameter of `MementoBridge._request` defaults to 300 seconds and its
expiry branch pops the pending slot and raises `GatewayTimeout` (504) —
but on the code as written that branch is unreachable: the
`await self._send_message(payload)` at line 137 raises `AttributeError`
(missing `self._logger`) on every call, aborting `_request` after the
slot was registered and before the bounded wait, so the slot in fact
leaks.  Evaluated here at a concrete running bridge: the call raises,
the just-registered slot is still in the pending map, and the 300-second
default is the one the claim cites. -/
theorem memento_request_send_raises :
    ((mementoRequest { proc := some ⟨none⟩, writerPresent := true, pending := [], idSeq := 0 }
        "tools.invoke" "x".data .timesOut).2 = .raised loggerAttrError) ∧
    ((mementoRequest { proc := some ⟨none⟩, writerPresent := true, pending := [], idSeq := 0 }
        "tools.invoke" "x".data .timesOut).1.pending = [(1, FutureState.unresolved)]) ∧
    mementoRequestTimeoutDefault = 300 := by
  refine ⟨?_, ?_, rfl⟩ <;> decide

/-! ## Memento wire framing (C7) -/

theorem readLine_append (xs rest : List Char) (h : '\n' ∉ xs) :
    readLine (xs ++ '\n' :: rest) = (xs ++ ['\n'], rest) := by
  induction xs with
  | nil => simp [readLine]
  | cons c t ih =>
    have hc : c ≠ '\n' := fun hc => h (hc ▸ List.mem_cons_self c t)
    have ht : '\n' ∉ t := fun hm => h (List.mem_cons_of_mem c hm)
    simp [readLine, hc, ih ht]

theorem dropWhile_eq_self_of_head {α : Type} (p : α → Bool) (l : List α)
    (h : ∀ a, l.head? = some a → p a = false) : l.dropWhile p = l := by
  cases l with
  | nil => rfl
  | cons a t => exact List.dropWhile_cons_of_neg (by simp [h a rfl])

theorem pyStrip_eq_self (l : List Char)
    (hhead : ∀ a, l.head? = some a → pyWhitespace a = false)
    (hlast : ∀ a, l.getLast? = some a → pyWhitespace a = false) : pyStrip l = l := by
  have h1 : l.dropWhile pyWhitespace = l := dropWhile_eq_self_of_head _ _ hhead
  have h2 : l.reverse.dropWhile pyWhitespace = l.reverse := by
    apply dropWhile_eq_self_of_head
    intro a ha
    rw [List.head?_reverse] at ha
    exact hlast a ha
  rw [pyStrip, h1, h2, List.reverse_reverse]

theorem pyStrip_digits {ds : List Char} (hall : ds.all Char.isDigit = true) :
    pyStrip ds = ds := by
  apply pyStrip_eq_self
  · intro a ha
    exact isDigit_not_ws (List.all_eq_true.mp hall a (List.mem_of_mem_head? ha))
  · intro a ha
    exact isDigit_not_ws (List.all_eq_true.mp hall a (List.mem_of_mem_getLast? ha))

theorem pyStrip_cons_space {ds : List Char} (hall : ds.all Char.isDigit = true) :
    pyStrip (' ' :: ds) = ds := by
  have h : pyStrip (' ' :: ds) = pyStrip ds := by
    rw [pyStrip, pyStrip, List.dropWhile_cons_of_pos (by decide)]
  rw [h, pyStrip_digits hall]

theorem pyStrip_append_newline (l : List Char) : pyStrip (l ++ ['\n']) = pyStrip l := by
  rw [pyStrip, pyStrip, List.dropWhile_append]
  by_cases h : (l.dropWhile pyWhitespace).isEmpty
  · rw [if_pos h, List.isEmpty_iff.mp h]
    rfl
  · rw [if_neg h, List.reverse_append,
      show (['\n'] : List Char).reverse = ['\n'] from rfl, List.singleton_append,
      List.dropWhile_cons_of_pos (by decide)]

theorem pyStrip_clheader {ds : List Char} (hne : ds ≠ [])
    (hall : ds.all Char.isDigit = true) :
    pyStrip ("Content-Length: ".data ++ ds ++ ['\r', '\n']) =
      "Content-Length: ".data ++ ds := by
  obtain ⟨c, t, hct⟩ := List.exists_cons_of_ne_nil (fun hrev =>
    hne (by simpa using congrArg List.reverse hrev) : ds.reverse ≠ [])
  have hcd : c.isDigit = true := by
    refine List.all_eq_true.mp hall c (List.mem_reverse.mp ?_)
    rw [hct]
    exact List.mem_cons_self c t
  rw [pyStrip]
  have hfront :
      ("Content-Length: ".data ++ (ds ++ ['\r', '\n'])).dropWhile pyWhitespace =
        "Content-Length: ".data ++ (ds ++ ['\r', '\n']) := by
    rw [show "Content-Length: ".data = 'C' :: "ontent-Length: ".data from rfl,
      List.cons_append]
    exact List.dropWhile_cons_of_neg (by decide)
  rw [List.append_assoc, hfront, List.reverse_append, List.reverse_append,
    show (['\r', '\n'] : List Char).reverse = ['\n', '\r'] from rfl]
  rw [List.append_assoc, List.cons_append, List.cons_append, List.nil_append,
    List.dropWhile_cons_of_pos (by decide), List.dropWhile_cons_of_pos (by decide),
    hct, List.cons_append, List.dropWhile_cons_of_neg (by simp [isDigit_not_ws hcd])]
  rw [show (c :: (t ++ "Content-Length: ".data.reverse)) =
      (c :: t) ++ "Content-Length: ".data.reverse from rfl,
    List.reverse_append, List.reverse_reverse, ← hct, List.reverse_reverse]

theorem pyLower_clheader_pref (ds : List Char) :
    pyStartsWith (pyLower ("Content-Length: ".data ++ ds)) "content-length:".data = true := by
  rw [pyStartsWith, List.isPrefixOf_iff_prefix, pyLower, List.map_append,
    show List.map Char.toLower "Content-Length: ".data = "content-length: ".data by decide,
    show "content-length: ".data = "content-length:".data ++ [' '] by decide,
    List.append_assoc]
  exact List.prefix_append _ _

theorem pySplitOnceRest_clheader (ds : List Char) :
    pySplitOnceRest ':' ("Content-Length: ".data ++ ds) = ' ' :: ds := by
  rw [pySplitOnceRest,
    show "Content-Length: ".data = "Content-Length".data ++ [':', ' '] by decide,
    List.append_assoc, List.dropWhile_append,
    show List.dropWhile (· != ':') "Content-Length".data = [] by decide]
  have hstep : List.dropWhile (fun x => x != ':') ([':', ' '] ++ ds) = ':' :: ' ' :: ds := by
    rw [show ([':', ' '] : List Char) ++ ds = ':' :: ' ' :: ds from rfl]
    exact List.dropWhile_cons_of_neg (by decide)
  simp [hstep]

theorem pyIntOfStr_pyStrNat (n : Nat) : pyIntOfStr (pyStrNat n) = some (n : Int) := by
  have hs : pyStrip (pyStrNat n) = pyStrNat n := pyStrip_digits (pyStrNat_all_digits n)
  obtain ⟨c, t, hct⟩ := List.exists_cons_of_ne_nil (pyStrNat_ne_nil n)
  have hcd : c.isDigit = true := by
    refine List.all_eq_true.mp (pyStrNat_all_digits n) c ?_
    rw [hct]
    exact List.mem_cons_self c t
  have hcm : c ≠ '-' := by rintro rfl; exact absurd hcd (by decide)
  have hcp : c ≠ '+' := by rintro rfl; exact absurd hcd (by decide)
  rw [pyIntOfStr, hs, hct]
  rw [if_neg (by simp [hcm]), if_neg (by simp [hcp]), ← hct, parseNatDigits_pyStrNat]
  rfl

theorem headerLoop_blankline (f : Nat) (hs : List (List Char × List Char)) (r : List Char) :
    headerLoop (f + 1) hs ('\r' :: '\n' :: r) = (some hs, r) := by
  have hrl : readLine ('\r' :: '\n' :: r) = (['\r', '\n'], r) := by
    simp [readLine]
  simp [headerLoop, hrl]

theorem readMessageLine_cl {μ : Type} (parse : List Char → Option μ) (line rest : List Char)
    (h1 : line.isEmpty = false) (h2 : (pyStrip line).isEmpty = false)
    (h3 : pyStartsWith (pyLower (pyStrip line)) "content-length:".data = true) :
    readMessageLine parse line rest = readMessageCL parse (pyStrip line) rest := by
  unfold readMessageLine
  rw [if_neg (by simp [h1]), if_neg (by simp [h2]), if_pos h3]

theorem readMessageLine_fallback {μ : Type} (parse : List Char → Option μ)
    (line rest : List Char)
    (h1 : line.isEmpty = false) (h2 : (pyStrip line).isEmpty = false)
    (h3 : pyStartsWith (pyLower (pyStrip line)) "content-length:".data = false) :
    readMessageLine parse line rest =
      (match parse (pyStrip line) with
        | none => Except.ok (none, rest)
        | some _ => Except.error loggerAttrError) := by
  unfold readMessageLine
  rw [if_neg (by simp [h1]), if_neg (by simp [h2]), if_neg (by simp [h3])]
  cases parse (pyStrip line) <;> rfl

theorem readMessage_cl_general {μ : Type} (parse : List Char → Option μ)
    (ds body r : List Char)
    (hne : ds ≠ []) (hall : ds.all Char.isDigit = true)
    (hint : pyIntOfStr ds = some (body.length : Int)) (hpos : 0 < body.length) :
    readMessage parse
        ("Content-Length: ".data ++ ds ++ ['\r', '\n', '\r', '\n'] ++ body ++ r) =
      (match parse body with
        | none => Except.ok (none, r)
        | some _ => Except.error loggerAttrError) := by
  have hnl : '\n' ∉ ("Content-Length: ".data ++ ds) ++ ['\r'] := by
    intro hmem
    rcases List.mem_append.mp hmem with h1 | h1
    · rcases List.mem_append.mp h1 with h2 | h2
      · revert h2; decide
      · exact absurd (List.all_eq_true.mp hall _ h2) (by decide)
    · revert h1; decide
  have hshape : "Content-Length: ".data ++ ds ++ ['\r', '\n', '\r', '\n'] ++ body ++ r =
      (("Content-Length: ".data ++ ds) ++ ['\r']) ++
        '\n' :: ('\r' :: '\n' :: (body ++ r)) := by
    simp
  have hrl := readLine_append (("Content-Length: ".data ++ ds) ++ ['\r'])
    ('\r' :: '\n' :: (body ++ r)) hnl
  have hline2 : (("Content-Length: ".data ++ ds) ++ ['\r']) ++ ['\n'] =
      ("Content-Length: ".data ++ ds) ++ ['\r', '\n'] := by
    simp
  have hstrip := pyStrip_clheader hne hall
  rw [hshape]
  simp only [readMessage, hrl]
  rw [hline2]
  rw [readMessageLine_cl parse (("Content-Length: ".data ++ ds) ++ ['\r', '\n'])
    ('\r' :: '\n' :: (body ++ r)) rfl (by rw [hstrip]; rfl)
    (by rw [hstrip]; exact pyLower_clheader_pref ds), hstrip]
  have hloop : headerLoop (('\r' :: '\n' :: (body ++ r)).length)
      (dictInsert "content-length".data ds []) ('\r' :: '\n' :: (body ++ r)) =
      (some (dictInsert "content-length".data ds []), body ++ r) := by
    rw [show ('\r' :: '\n' :: (body ++ r)).length = (body ++ r).length + 1 + 1 by simp]
    exact headerLoop_blankline _ _ _
  have hn0 : ¬((body.length : Int) ≤ 0) := by omega
  have htn : ((body.length : Int)).toNat = body.length := Int.toNat_natCast _
  have hre : readExactly body.length (body ++ r) = some (body, r) := by
    rw [readExactly, if_pos (by simp)]
    rw [List.take_left, List.drop_left]
  unfold readMessageCL
  rw [pySplitOnceRest_clheader ds, pyStrip_cons_space hall, hloop]
  change readClBody parse (dictInsert "content-length".data ds []) (body ++ r) = _
  unfold readClBody
  rw [dictLookup_dictInsert_self, Option.getD_some, hint]
  change (if ((body.length : Int)) ≤ 0 then _ else _) = _
  rw [if_neg hn0, htn, hre]
  change (match parse body with
    | none => Except.ok (none, r)
    | some m =>
      match mementoLoggerAttr with
      | none => Except.error loggerAttrError
      | some _ => Except.ok (some m, r)) = _
  cases parse body <;> rfl

theorem readClBody_ok_fst_none {μ : Type} {parse : List Char → Option μ}
    {headers : List (List Char × List Char)} {r : List Char} {out : Option μ × List Char}
    (h : readClBody parse headers r = .ok out) : out.1 = none := by
  unfold readClBody at h
  simp only [mementoLoggerAttr] at h
  split at h
  · exact absurd h (by simp)
  · split at h
    · simp only [Except.ok.injEq] at h
      rw [← h]
    · split at h
      · simp only [Except.ok.injEq] at h
        rw [← h]
      · split at h
        · simp only [Except.ok.injEq] at h
          rw [← h]
        · exact absurd h (by simp)

theorem readMessageCL_ok_fst_none {μ : Type} {parse : List Char → Option μ}
    {stripped rest : List Char} {out : Option μ × List Char}
    (h : readMessageCL parse stripped rest = .ok out) : out.1 = none := by
  unfold readMessageCL at h
  split at h
  · simp only [Except.ok.injEq] at h
    rw [← h]
  · exact readClBody_ok_fst_none h

theorem readMessageLine_ok_fst_none {μ : Type} {parse : List Char → Option μ}
    {line rest : List Char} {out : Option μ × List Char}
    (h : readMessageLine parse line rest = .ok out) : out.1 = none := by
  unfold readMessageLine at h
  simp only [mementoLoggerAttr] at h
  split at h
  · simp only [Except.ok.injEq] at h
    rw [← h]
  · split at h
    · simp only [Except.ok.injEq] at h
      rw [← h]
    · split at h
      · exact readMessageCL_ok_fst_none h
      · split at h
        · simp only [Except.ok.injEq] at h
          rw [← h]
        · exact absurd h (by simp)

/-- Every non-raising run of `_read_message` returns `None`: the
`return message` lines sit behind the `self._logger` dereference, so a
successfully parsed message always raises instead.  (With a correctly
assigned logger, `readMessage_cl_general` shows the Content-Length path
would locate and parse exactly the declared body.) -/
theorem readMessage_ok_fst_none {μ : Type} {parse : List Char → Option μ}
    {stream : List Char} {out : Option μ × List Char}
    (h : readMessage parse stream = .ok out) : out.1 = none := by
  unfold readMessage at h
  split at h
  exact readMessageLine_ok_fst_none h

/-- Claim C7 describes the intended and clearly specified framing —
`_send_message` does construct `Content-Length: N` followed by exactly
`N` body bytes (lines 177-178), and `_read_message` does recognise both
framings — but the code has a bug that stops both paths: the
never-assigned `self._logger` raises `AttributeError` at line 179
before anything is written, and at lines 218/228 right after every
successful parse.  Evaluated at the concrete body `"42"`: the frame the
writer would emit is `Content-Length: 2\r\n\r\n42`, yet `_send_message`
raises instead of writing it, and the reader raises on that framed
stream and on a bare newline-delimited line alike, never returning a
message. -/
theorem memento_framing_logger_bug :
    sendFrame "42".data = "Content-Length: 2\r\n\r\n42".data ∧
    sendMessage "42".data = .error loggerAttrError ∧
    readMessage some (sendFrame "42".data ++ []) = .error loggerAttrError ∧
    readMessage some ("x".data ++ ['\n']) = .error loggerAttrError := by
  refine ⟨?_, ?_, ?_, ?_⟩ <;> decide

/-- Claim C1, counterexample for the memento third of the claim: a
successfully parsed inbound response whose id matches the one pending
slot does not pop or resolve it — memento's reader raises the
`AttributeError` from the missing `self._logger` between parse and
dispatch, so the reader task dies and nothing is ever resolved. -/
theorem memento_reader_never_resolves :
    mementoReaderStep (fun _ => some { id? := some (.num 1) })
        [(1, FutureState.unresolved)] ("r".data ++ ['\n']) =
      .error loggerAttrError := by
  rfl

/-- Claim C10, amended: in the line-based bridges (`GithubMCPBridge`,
`MemoryBridge`) the dispatch step is total over parsed messages whose id
is absent/null or coercible by Python `int()` (an integer, or an
integer-literal string), while a non-coercible id raises `ValueError`,
terminating the reader loop; in `MementoBridge` the dispatch step is
never reached at all — `_read_message` raises `AttributeError` from the
never-assigned `self._logger` after every successful parse, whatever
the id, so every non-raising read returns `None` and a message is never
delivered. -/
theorem dispatch_total_for_coercible_ids :
    (∀ (pending : List (Int × FutureState)) (m : RpcMessage),
      (m.id? = none ∨ ∃ v i, m.id? = some v ∧ pyInt v = some i) →
      ∃ out, dispatchMessage pending m = .ok out) ∧
    (∀ (μ : Type) (parse : List Char → Option μ) (stream : List Char)
        (out : Option μ × List Char),
      readMessage parse stream = .ok out → out.1 = none) := by
  constructor
  · intro pending m h
    rcases h with hnone | ⟨v, i, hv, hpy⟩
    · exact ⟨(pending, none), by simp [dispatchMessage, hnone]⟩
    · cases hpop : dictPop i pending with
      | none => exact ⟨(pending, none), by simp [dispatchMessage, hv, hpy, hpop]⟩
      | some pr =>
        obtain ⟨fut, rest⟩ := pr
        by_cases hdone : fut.done
        · exact ⟨(rest, none), by simp [dispatchMessage, hv, hpy, hpop, hdone]⟩
        · exact ⟨(rest, some (i, m)), by simp [dispatchMessage, hv, hpy, hpop, hdone]⟩
  · intro μ parse stream out h
    exact readMessage_ok_fst_none h

/-- Witness for the amended C10: an integer-literal string id is
dispatched without raising, and a non-raising memento read (a line that
fails to parse) returns `None` rather than a message. -/
theorem dispatch_total_for_coercible_ids_witness :
    (∃ out, dispatchMessage [] { id? := some (.str "7") } = .ok out) ∧
    ((none, ([] : List Char)).1 = (none : Option Unit)) :=
  ⟨dispatch_total_for_coercible_ids.1 [] { id? := some (.str "7") }
    (Or.inr ⟨.str "7", 7, rfl, by decide⟩),
   dispatch_total_for_coercible_ids.2 Unit (fun _ => none) ("x".data ++ ['\n'])
    (none, []) (by decide)⟩

end VoiceChat
